import Mathlib

/-!
Shallow embedding of the signalk-usage plugin core (power engine,
tankage engine, usage coordinator) and proofs about the properties of
its usage calculations.

Timestamps are modelled as integers (milliseconds since the epoch, as
produced by JavaScript `Date.getTime()`); sample values and all derived
quantities are rationals, modelling JavaScript number arithmetic on the
exact inputs used here.
-/

namespace SignalKUsage

/-- A time-series sample: timestamp in epoch milliseconds and a numeric
value, as returned by the InfluxDB query port. -/
structure Sample where
  timestamp : ℤ
  value : ℚ
deriving Repr, DecidableEq

/-! ### String helpers (JavaScript `toLowerCase`, `includes`, `startsWith`) -/

/-- JavaScript `String.prototype.toLowerCase` (ASCII paths only in this
code base, so per-character lowering is exact). -/
def toLowerStr (s : String) : String :=
  ⟨s.data.map Char.toLower⟩

/-- Check that `needle` occurs at the head of `hay`. -/
def leadEq : List Char → List Char → Bool
  | [], _ => true
  | _ :: _, [] => false
  | a :: as, b :: bs => a == b && leadEq as bs

/-- Check that `needle` occurs contiguously anywhere in `hay`. -/
def hasSubList (needle : List Char) : List Char → Bool
  | [] => needle.isEmpty
  | c :: t => leadEq needle (c :: t) || hasSubList needle t

/-- JavaScript `s.includes(sub)`. -/
def strIncludes (s sub : String) : Bool :=
  hasSubList sub.data s.data

/-- JavaScript `s.startsWith(sub)`. -/
def strBegins (s sub : String) : Bool :=
  leadEq sub.data s.data

/-! ### Range / aggregation parsing (shared by both engines) -/

/-- JavaScript `parseInt` on a digit string. -/
def digitsToNat (cs : List Char) : ℕ :=
  cs.foldl (fun n c => n * 10 + (c.toNat - 48)) 0

/-- The regex match `^(\d+)([smhd])$` used by `parseAggregationWindow`
and `parseTimeRange`: a nonempty digit run followed by a unit letter. -/
def matchNumUnit (s : String) : Option (ℕ × Char) :=
  match s.data.getLast? with
  | none => none
  | some u =>
    let ds := s.data.dropLast
    if ds ≠ [] ∧ ds.all Char.isDigit ∧ (u = 's' ∨ u = 'm' ∨ u = 'h' ∨ u = 'd') then
      some (digitsToNat ds, u)
    else none

/-- `PowerEngine.parseAggregationWindow`: aggregation string to minutes
(default 60 when unparseable). -/
def parseAggregationWindow (aggregation : String) : ℚ :=
  match matchNumUnit aggregation with
  | none => 60
  | some (v, u) =>
    if u = 's' then (v : ℚ) / 60
    else if u = 'm' then (v : ℚ)
    else if u = 'h' then (v : ℚ) * 60
    else if u = 'd' then (v : ℚ) * 24 * 60
    else 60

/-- `parseTimeRange` (identical in both engines): range string to hours
(default 1 when unparseable). -/
def parseTimeRange (range : String) : ℚ :=
  match matchNumUnit range with
  | none => 1
  | some (v, u) =>
    if u = 's' then (v : ℚ) / 3600
    else if u = 'm' then (v : ℚ) / 60
    else if u = 'h' then (v : ℚ)
    else if u = 'd' then (v : ℚ) * 24
    else 1

/-! ### Power engine: directionality -/

/-- `PowerEngine.autoDetectDirectionalityType`. -/
def autoDetectDirectionalityType (path : String) : String :=
  let pathLower := toLowerStr path
  if strIncludes pathLower "solar" || strIncludes pathLower "panel" ||
      strIncludes pathLower "alternator" then
    "producer"
  else if strIncludes pathLower "acin" || strIncludes pathLower "shore" then
    "consumer"
  else if strIncludes pathLower "battery" && !strIncludes pathLower "acout" then
    "bidirectional-reversed"
  else
    "bidirectional-normal"

/-- Result record of `applyDirectionality`. -/
structure DirResult where
  consumedWh : ℚ
  generatedWh : ℚ
  appliedDirectionality : String
deriving Repr, DecidableEq

/-- The four recognised branches of the `switch` in
`PowerEngine.applyDirectionality`.  The final branch is only ever
reached with `"bidirectional-reversed"`, because callers pass either a
recognised value or the output of `autoDetectDirectionalityType`. -/
def applyDirectionalityKnown (directionality : String)
    (positiveEnergyWh negativeEnergyWh : ℚ) : DirResult :=
  if directionality = "producer" then
    ⟨0, positiveEnergyWh, "producer (explicit)"⟩
  else if directionality = "consumer" then
    ⟨positiveEnergyWh, 0, "consumer (explicit)"⟩
  else if directionality = "bidirectional-normal" then
    ⟨negativeEnergyWh, positiveEnergyWh, "bidirectional-normal (explicit)"⟩
  else
    ⟨positiveEnergyWh, negativeEnergyWh, "bidirectional-reversed (explicit)"⟩

/-- `PowerEngine.applyDirectionality`: the `default` case of the source's
`switch` re-invokes `applyDirectionality` once with the auto-detected
directionality, which is always one of the four recognised strings, so
that single retry is exactly `applyDirectionalityKnown` of the detected
value. -/
def applyDirectionality (path directionality : String)
    (positiveEnergyWh negativeEnergyWh : ℚ) : DirResult :=
  if directionality = "producer" ∨ directionality = "consumer" ∨
      directionality = "bidirectional-normal" ∨
      directionality = "bidirectional-reversed" then
    applyDirectionalityKnown directionality positiveEnergyWh negativeEnergyWh
  else
    applyDirectionalityKnown (autoDetectDirectionalityType path)
      positiveEnergyWh negativeEnergyWh

/-! ### Power engine: trapezoidal integration with gap handling -/

/-- Accumulator of the integration loop in
`PowerEngine.calculateUsageForPeriod`. -/
structure IntegrationTotals where
  totalEnergyWh : ℚ
  positiveEnergyWh : ℚ
  negativeEnergyWh : ℚ
  gapsDetected : ℕ
  gapTimeHours : ℚ
  skippedNoise : ℕ
deriving Repr, DecidableEq

/-- Initial accumulator (all counters zero). -/
def initTotals : IntegrationTotals :=
  ⟨0, 0, 0, 0, 0, 0⟩

/-- One iteration of the integration loop: the consecutive pair
`(p1, p2)`, with negative-average noise skipping for producer/consumer,
gap detection against `gapThresholdMs`, and accumulation of the
contribution into the positive or negative bucket by its sign. -/
def integrateStep (effectiveDirectionality : String) (gapThresholdMs : ℚ)
    (acc : IntegrationTotals) (p1 p2 : Sample) : IntegrationTotals :=
  let timeDiffMs : ℚ := ((p2.timestamp - p1.timestamp : ℤ) : ℚ)
  let timeDiffHours : ℚ := timeDiffMs / (1000 * 60 * 60)
  let avgPower : ℚ := (p1.value + p2.value) / 2
  if (effectiveDirectionality = "producer" ∧ avgPower < 0) ∨
      (effectiveDirectionality = "consumer" ∧ avgPower < 0) then
    { acc with skippedNoise := acc.skippedNoise + 1 }
  else if timeDiffMs > gapThresholdMs then
    let gapEnergy : ℚ := p1.value * timeDiffHours
    { acc with
      gapsDetected := acc.gapsDetected + 1
      gapTimeHours := acc.gapTimeHours + timeDiffHours
      totalEnergyWh := acc.totalEnergyWh + gapEnergy
      positiveEnergyWh :=
        if gapEnergy > 0 then acc.positiveEnergyWh + gapEnergy else acc.positiveEnergyWh
      negativeEnergyWh :=
        if gapEnergy > 0 then acc.negativeEnergyWh else acc.negativeEnergyWh + |gapEnergy| }
  else
    let energy : ℚ := avgPower * timeDiffHours
    { acc with
      totalEnergyWh := acc.totalEnergyWh + energy
      positiveEnergyWh :=
        if energy > 0 then acc.positiveEnergyWh + energy else acc.positiveEnergyWh
      negativeEnergyWh :=
        if energy > 0 then acc.negativeEnergyWh else acc.negativeEnergyWh + |energy| }

/-- Tail of the integration loop: walk the remaining points, pairing
each with its predecessor. -/
def integrateAux (effectiveDirectionality : String) (gapThresholdMs : ℚ)
    (acc : IntegrationTotals) : Sample → List Sample → IntegrationTotals
  | _, [] => acc
  | p1, p2 :: rest =>
    integrateAux effectiveDirectionality gapThresholdMs
      (integrateStep effectiveDirectionality gapThresholdMs acc p1 p2) p2 rest

/-- The whole integration loop (`for (let i = 1; i < dataPoints.length; i++)`). -/
def integrateSeries (effectiveDirectionality : String) (gapThresholdMs : ℚ)
    (dataPoints : List Sample) : IntegrationTotals :=
  match dataPoints with
  | [] => initTotals
  | p :: rest => integrateAux effectiveDirectionality gapThresholdMs initTotals p rest

/-- Gap threshold in milliseconds:
`expectedIntervalMinutes * 2 * 60 * 1000` in the source. -/
def gapThresholdOf (aggregation : String) : ℚ :=
  parseAggregationWindow aggregation * 2 * 60 * 1000

/-! ### Configuration and query-port interface -/

/-- A configured period: range descriptor plus aggregation window. -/
structure PeriodConfig where
  range : String
  aggregation : String
deriving Repr, DecidableEq

/-- A configured power item.  Optional fields model absent JSON keys;
`directionality = some ""` models the falsy empty string. -/
structure PowerItem where
  path : String
  name : Option String
  directionality : Option String
  capacity : Option ℚ
  enabled : Option Bool
  periods : Option (List PeriodConfig)
deriving Repr, DecidableEq

/-- A configured tankage item. -/
structure TankItem where
  path : String
  name : Option String
  unit : Option String
  capacity : Option ℚ
  largeTank : Option Bool
  enabled : Option Bool
  periods : Option (List PeriodConfig)
deriving Repr, DecidableEq

/-- The `getFirstAndLast` answer: first and last raw sample of a range,
either possibly absent. -/
structure FirstLast where
  first : Option Sample
  last : Option Sample
deriving Repr, DecidableEq

/-- The InfluxDB query port, as consumed by the engines: each call either
returns data or throws (modelled by `Except` carrying the error
message). -/
structure Backend where
  getFirstAndLast : String → String → Except String FirstLast
  queryPath : String → String → String → Except String (List Sample)

/-- A per-period result, matching the object shapes the source produces:
an insufficient-data record with a reason, a populated power usage
record, a populated tankage usage record, or the `{ error: message }`
record written by `PowerEngine.calculateForItem`'s catch block. -/
inductive PeriodResult where
  | insufficient (reason : String)
  | power (period : String) (startTime endTime : ℤ) (startValue endValue delta : ℚ)
      (consumedWh generatedWh : ℚ)
  | tank (consumed added : ℚ)
  | errorTag (message : String)
deriving Repr, DecidableEq

/-! ### Power engine: per-period calculation -/

/-- Bucket key for the daily coverage check.  The source keys buckets by
the string `"Y-M-D"` built from `getUTCFullYear`/`getUTCMonth`/
`getUTCDate`; UTC `(year, month, day)` triples are in bijection with the
floor of the epoch-millisecond timestamp divided by 86 400 000, so
distinct-bucket counts agree. -/
def dayBucketKey (ts : ℤ) : ℤ :=
  Int.fdiv ts 86400000

/-- Bucket key for the hourly coverage check; UTC
`(year, month, day, hour)` tuples are in bijection with the floor of the
timestamp divided by 3 600 000. -/
def hourBucketKey (ts : ℤ) : ℤ :=
  Int.fdiv ts 3600000

/-- Number of distinct daily buckets among the samples
(`new Set(dataPoints.map(...)).size`). -/
def uniqueDayCount (dataPoints : List Sample) : ℕ :=
  ((dataPoints.map fun p => dayBucketKey p.timestamp).dedup).length

/-- Number of distinct hourly buckets among the samples. -/
def uniqueHourCount (dataPoints : List Sample) : ℕ :=
  ((dataPoints.map fun p => hourBucketKey p.timestamp).dedup).length

/-- The coverage computation of `PowerEngine.calculateUsageForPeriod`:
distinct buckets, expected buckets and the unit word, choosing daily
buckets when the parsed range is at least 24 hours and hourly buckets
below that. -/
def powerCoverage (range : String) (dataPoints : List Sample) : ℕ × ℤ × String :=
  let rangeHours := parseTimeRange range
  if 24 ≤ rangeHours then
    (uniqueDayCount dataPoints, ⌈rangeHours / 24⌉, "days")
  else
    (uniqueHourCount dataPoints, ⌈rangeHours⌉, "hours")

/-- Effective directionality: the explicit configuration value when it
is truthy, otherwise `autoDetectDirectionalityType` of the path. -/
def effectiveDirectionalityOf (item : PowerItem) : String :=
  match item.directionality with
  | none => autoDetectDirectionalityType item.path
  | some d => if d = "" then autoDetectDirectionalityType item.path else d

/-- `PowerEngine.calculateUsageForPeriod`.  The `getFirstAndLast` call
sits outside the source's `try` block, so its failure propagates
(`Except.error`); the `queryPath` call and everything after it sit
inside the `try`, whose catch returns an insufficient-data record whose
reason is `"Error: "` followed by the message. -/
def powerCalculateUsageForPeriod (backend : Backend) (item : PowerItem)
    (period : PeriodConfig) : Except String PeriodResult :=
  let rangeParam := "-" ++ period.range
  let effectiveDirectionality := effectiveDirectionalityOf item
  match backend.getFirstAndLast item.path rangeParam with
  | .error msg => .error msg
  | .ok fl =>
  match fl.first, fl.last with
  | some first, some last =>
    let delta := last.value - first.value
    match backend.queryPath item.path rangeParam period.aggregation with
    | .error msg => .ok (.insufficient ("Error: " ++ msg))
    | .ok dataPoints =>
      if dataPoints.length < 2 then
        .ok (.insufficient "Insufficient data points")
      else
        let cov := powerCoverage period.range dataPoints
        if (cov.1 : ℤ) < cov.2.1 then
          .ok (.insufficient ("Insufficient coverage (" ++ toString cov.1 ++ "/" ++
            toString cov.2.1 ++ " " ++ cov.2.2 ++ ")"))
        else
          let gapThresholdMs := gapThresholdOf period.aggregation
          let totals := integrateSeries effectiveDirectionality gapThresholdMs dataPoints
          let result := applyDirectionality item.path effectiveDirectionality
            totals.positiveEnergyWh totals.negativeEnergyWh
          .ok (.power period.range first.timestamp last.timestamp
            first.value last.value delta result.consumedWh result.generatedWh)
  | _, _ => .ok (.insufficient "No data available for this period")

/-- The default power periods used when an item has none configured. -/
def defaultPowerPeriods : List PeriodConfig :=
  [⟨"1h", "1m"⟩, ⟨"24h", "15m"⟩, ⟨"7d", "1h"⟩]

/-- The usage record an engine builds for one item: the period map is an
association list keyed by the range string, in configuration order. -/
structure ItemUsage where
  path : String
  name : String
  unit : String
  directionality : Option String
  capacity : Option ℚ
  periods : List (String × PeriodResult)
deriving Repr, DecidableEq

/-- The per-period body of `PowerEngine.calculateForItem`: run the
period calculation, catching a thrown error into the `{ error: message }`
record. -/
def powerPeriodEntry (backend : Backend) (item : PowerItem)
    (period : PeriodConfig) : String × PeriodResult :=
  (period.range,
    match powerCalculateUsageForPeriod backend item period with
    | .ok usage => usage
    | .error msg => .errorTag msg)

/-- `PowerEngine.calculateForItem` (without the cache write, which the
engine-level pass performs). -/
def powerCalculateForItem (backend : Backend) (item : PowerItem) : ItemUsage :=
  let periods := item.periods.getD defaultPowerPeriods
  { path := item.path
    name := item.name.getD item.path
    unit := "watts"
    directionality := item.directionality
    capacity := item.capacity
    periods := periods.map (powerPeriodEntry backend item) }

/-! ### Tankage engine (the `tankage-engine` module required by the
coordinator): constants, smoothing pre-pass and change-detection walk -/

/-- Minimum spacing between processed points: 2 minutes. -/
def MIN_TIME_BETWEEN_POINTS_MS : ℤ := 2 * 60 * 1000

/-- Minimum duration for an addition: 5 minutes. -/
def ADDITION_MIN_DURATION_MS : ℤ := 5 * 60 * 1000

/-- Addition size threshold for normal tanks, in gallons. -/
def SMALL_TANK_ADDITION_GAL : ℚ := 1

/-- Addition size threshold for tanks flagged large, in gallons. -/
def LARGE_TANK_ADDITION_GAL : ℚ := 5

/-- Gallon to cubic-meter conversion factor used by the source. -/
def GAL_TO_M3 : ℚ := 378541 / 100000000

/-- Smoothing window: 6 hours. -/
def SMOOTHING_WINDOW_MS : ℤ := 6 * 60 * 60 * 1000

/-- Large-refill detection threshold, in gallons. -/
def LARGE_REFILL_THRESHOLD_GAL : ℚ := 10

/-- Large-refill detection threshold, in cubic meters. -/
def LARGE_REFILL_THRESHOLD_M3 : ℚ := LARGE_REFILL_THRESHOLD_GAL * GAL_TO_M3

/-- Whether index `i` is in `largeRefillIndices`: `i ≥ 1` and the raw
single-step increase from index `i - 1` to `i` is at least the
large-refill threshold. -/
def largeRefillAt (dataPoints : List Sample) (i : ℕ) : Bool :=
  match dataPoints.get? i, dataPoints.get? (i - 1) with
  | some curr, some prev =>
    decide (1 ≤ i) && decide (LARGE_REFILL_THRESHOLD_M3 ≤ curr.value - prev.value)
  | _, _ => false

/-- The `for (let k = i; k >= 0; k--)` scan for the most recent
large-refill index at or before `i` (0 when none exists). -/
def refillStartIndex (dataPoints : List Sample) : ℕ → ℕ
  | 0 => 0
  | k + 1 =>
    if largeRefillAt dataPoints (k + 1) then k + 1 else refillStartIndex dataPoints k

/-- The smoothed value of index `i`: a large-refill index keeps its raw
value; any other index is replaced by the mean of the samples with
indices from `refillStartIndex` up to `i` whose timestamps lie within
the trailing 6-hour window. -/
def smoothedValue (dataPoints : List Sample) (i : ℕ) : ℚ :=
  match dataPoints.get? i with
  | none => 0
  | some currentPoint =>
    if largeRefillAt dataPoints i then currentPoint.value
    else
      let windowStart := currentPoint.timestamp - SMOOTHING_WINDOW_MS
      let startIndex := refillStartIndex dataPoints i
      let windowPoints :=
        (((List.range (i + 1)).filter (fun j => startIndex ≤ j)).filterMap
          (fun j => dataPoints.get? j)).filter
          (fun p => windowStart ≤ p.timestamp)
      ((windowPoints.map Sample.value).sum) / (windowPoints.length : ℚ)

/-- The smoothed sequence (`smoothedPoints` in the source): every sample
keeps its timestamp and takes its smoothed value. -/
def smoothPoints (dataPoints : List Sample) : List Sample :=
  dataPoints.enum.map fun ic => ⟨ic.2.timestamp, smoothedValue dataPoints ic.1⟩

/-- Running totals of the change-detection walk, together with the
current tracked point. -/
structure WalkState where
  lastTrackedPoint : Sample
  totalConsumed : ℚ
  totalAdded : ℚ
deriving Repr, DecidableEq

/-- One iteration of the change-detection walk: skip (without advancing
the tracked point) when spacing is below 2 minutes; otherwise account
the delta and advance the tracked point. -/
def tankWalkStep (additionThresholdM3 : ℚ) (st : WalkState) (currPoint : Sample) :
    WalkState :=
  let timeDiffMs := currPoint.timestamp - st.lastTrackedPoint.timestamp
  if timeDiffMs < MIN_TIME_BETWEEN_POINTS_MS then
    st
  else
    let changeM3 := currPoint.value - st.lastTrackedPoint.value
    if 0 < changeM3 then
      if additionThresholdM3 ≤ changeM3 ∧ ADDITION_MIN_DURATION_MS ≤ timeDiffMs then
        ⟨currPoint, st.totalConsumed, st.totalAdded + changeM3⟩
      else
        ⟨currPoint, st.totalConsumed, st.totalAdded⟩
    else if changeM3 < 0 then
      ⟨currPoint, st.totalConsumed + |changeM3|, st.totalAdded⟩
    else
      ⟨currPoint, st.totalConsumed, st.totalAdded⟩

/-- Consumption/addition totals of one tankage period. -/
structure TankTotals where
  consumed : ℚ
  added : ℚ
deriving Repr, DecidableEq

/-- The addition threshold (in cubic meters) for an item:
5 gallon-equivalent when flagged large, 1 gallon-equivalent otherwise. -/
def additionThresholdM3Of (item : TankItem) : ℚ :=
  (if item.largeTank.getD false then LARGE_TANK_ADDITION_GAL else SMALL_TANK_ADDITION_GAL) *
    GAL_TO_M3

/-- `TankageEngine.processDataPoints`: smoothing pre-pass followed by
the change-detection walk over the smoothed sequence.  Callers
guarantee at least two points; the empty case returns zero totals. -/
def processDataPoints (dataPoints : List Sample) (item : TankItem) : TankTotals :=
  let additionThresholdM3 := additionThresholdM3Of item
  match smoothPoints dataPoints with
  | [] => ⟨0, 0⟩
  | first :: rest =>
    let final := rest.foldl (tankWalkStep additionThresholdM3) ⟨first, 0, 0⟩
    ⟨final.totalConsumed, final.totalAdded⟩

/-- `TankageEngine.getAutoAggregation`. -/
def tankGetAutoAggregation (rangeHours : ℚ) : String :=
  if rangeHours ≤ 1 then "1m"
  else if rangeHours ≤ 6 then "5m"
  else if rangeHours ≤ 24 then "15m"
  else if rangeHours ≤ 168 then "1h"
  else "4h"

/-- JavaScript `toFixed(0)`: round half away from zero. -/
def jsToFixed0 (q : ℚ) : ℤ :=
  if q < 0 then -⌊-q + 1 / 2⌋ else ⌊q + 1 / 2⌋

/-- `TankageEngine.calculateUsageForPeriod`: query (converting a failure
into the tagged result `"Database query failed"`), require two points,
require 70% time coverage, then run `processDataPoints`.  The source
also computes unused `uniquePeriods`/`expectedPeriods` locals, which
nothing reads; they are omitted.  The empty aggregation string models an
absent (falsy) configured aggregation. -/
def tankCalculateUsageForPeriod (backend : Backend) (item : TankItem)
    (period : PeriodConfig) : PeriodResult :=
  let rangeHours := parseTimeRange period.range
  let aggregationWindow :=
    if period.aggregation = "" then tankGetAutoAggregation rangeHours else period.aggregation
  let rangeParam := "-" ++ period.range
  match backend.queryPath item.path rangeParam aggregationWindow with
  | .error _ => .insufficient "Database query failed"
  | .ok dataPoints =>
    match dataPoints with
    | [] => .insufficient "Not enough data points"
    | [_] => .insufficient "Not enough data points"
    | p0 :: p1 :: rest =>
      let lastPoint := (p0 :: p1 :: rest).getLastD p0
      let coveredHours : ℚ := ((lastPoint.timestamp - p0.timestamp : ℤ) : ℚ) / (1000 * 60 * 60)
      let coveragePercent := coveredHours / rangeHours * 100
      if coveragePercent < 70 then
        .insufficient ("Only " ++ toString (jsToFixed0 coveragePercent) ++
          "% coverage (need 70%)")
      else
        let totals := processDataPoints (p0 :: p1 :: rest) item
        .tank totals.consumed totals.added

/-- `TankageEngine.getUnit`: explicit configuration wins when truthy,
else infer from the lower-cased path. -/
def tankGetUnit (item : TankItem) : String :=
  let inferred :=
    let path := toLowerStr item.path
    if strIncludes path "currentlevel" then "ratio"
    else if strBegins path "tanks." &&
        (strIncludes path "remaining" || strIncludes path "currentvolume") then "m3"
    else "unknown"
  match item.unit with
  | some u => if u = "" then inferred else u
  | none => inferred

/-- The default tankage periods used when an item has none configured. -/
def defaultTankPeriods : List PeriodConfig :=
  [⟨"24h", "15m"⟩, ⟨"7d", "1h"⟩]

/-- `TankageEngine.calculateForItem` (without the cache write).  The
per-period try/catch never fires in the pure model because
`tankCalculateUsageForPeriod` already converts query failures. -/
def tankCalculateForItem (backend : Backend) (item : TankItem) : ItemUsage :=
  { path := item.path
    name := item.name.getD item.path
    unit := tankGetUnit item
    directionality := none
    capacity := item.capacity
    periods := (item.periods.getD defaultTankPeriods).map
      (fun period => (period.range, tankCalculateUsageForPeriod backend item period)) }

/-! ### Engine caches and plugin options -/

/-- A cache slot: the item usage plus the `Date.now()` write time. -/
structure CachedEntry where
  data : ItemUsage
  timestamp : ℤ
deriving Repr, DecidableEq

/-- An engine cache: a `Map` from path to cached entry, modelled as an
association list in insertion order with unique keys. -/
abbrev EngineCache := List (String × CachedEntry)

/-- Association-list lookup (JavaScript `Map.get` / property access). -/
def lookupStr {α : Type} (l : List (String × α)) (k : String) : Option α :=
  (l.find? (fun kv => kv.1 == k)).map (fun kv => kv.2)

/-- Association-list update (JavaScript `Map.set`): replace in place
when the key exists, else append. -/
def assocSet {α : Type} (cache : List (String × α)) (k : String) (v : α) :
    List (String × α) :=
  if cache.any (fun kv => kv.1 == k) then
    cache.map (fun kv => if kv.1 == k then (k, v) else kv)
  else
    cache ++ [(k, v)]

/-- The `reporting` options block (only the field the core reads). -/
structure ReportingConfig where
  cacheResults : Option Bool
deriving Repr, DecidableEq

/-- A configured group of items. -/
structure GroupConfig where
  id : String
  name : String
  type : String
  paths : List String
deriving Repr, DecidableEq

/-- Plugin options as consumed by the engines and the coordinator. -/
structure Options where
  power : Option (List PowerItem)
  tankage : Option (List TankItem)
  groups : Option (List GroupConfig)
  reporting : Option ReportingConfig

/-- `options.reporting?.cacheResults !== false`. -/
def cacheEnabledOf (options : Options) : Bool :=
  !((options.reporting.bind ReportingConfig.cacheResults) == some false)

/-- The power items a pass computes:
`(options.power || []).filter(item => item.enabled !== false)`. -/
def powerEnabledItems (options : Options) : List PowerItem :=
  (options.power.getD []).filter (fun item => !(item.enabled == some false))

/-- The tankage items a pass computes. -/
def tankEnabledItems (options : Options) : List TankItem :=
  (options.tankage.getD []).filter (fun item => !(item.enabled == some false))

/-- `PowerEngine.calculateAll` as a cache transformer: every enabled
item's usage is computed and written to its own slot (when caching is
enabled), keyed by path. -/
def powerEngineCalculateAll (backend : Backend) (options : Options) (now : ℤ)
    (cache : EngineCache) : EngineCache :=
  (powerEnabledItems options).foldl
    (fun c item =>
      if cacheEnabledOf options then
        assocSet c item.path ⟨powerCalculateForItem backend item, now⟩
      else c)
    cache

/-- `TankageEngine.calculateAll` as a cache transformer. -/
def tankEngineCalculateAll (backend : Backend) (options : Options) (now : ℤ)
    (cache : EngineCache) : EngineCache :=
  (tankEnabledItems options).foldl
    (fun c item =>
      if cacheEnabledOf options then
        assocSet c item.path ⟨tankCalculateForItem backend item, now⟩
      else c)
    cache

/-! ### Group aggregation -/

/-- One period of a group total: summed tankage buckets, summed energy
buckets, or the bare record produced for an unrecognised group type. -/
inductive GroupPeriodData where
  | tank (period : String) (consumed added : ℚ)
  | power (period : String) (consumedWh generatedWh : ℚ)
  | bare (period : String)
deriving Repr, DecidableEq

/-- A cached group total. -/
structure GroupData where
  id : String
  name : String
  type : String
  paths : List String
  periods : List (String × GroupPeriodData)
deriving Repr, DecidableEq

/-- A group-cache slot. -/
structure GroupCachedEntry where
  data : GroupData
  timestamp : ℤ
deriving Repr, DecidableEq

/-- The coordinator's group cache. -/
abbrev GroupCache := List (String × GroupCachedEntry)

/-- The member lookup used by `calculateGroups`: the tankage cache for
tankage groups, the power cache for power groups. -/
def groupItemFor (group : GroupConfig) (powerCache tankCache : EngineCache)
    (path : String) : Option ItemUsage :=
  if group.type == "tankage" then (lookupStr tankCache path).map (fun e => e.data)
  else if group.type == "power" then (lookupStr powerCache path).map (fun e => e.data)
  else none

/-- Add keys to a set kept in insertion order (JavaScript `Set`). -/
def addKeys (acc keys : List String) : List String :=
  keys.foldl (fun a k => if a.contains k then a else a ++ [k]) acc

/-- The union of period keys across a group's members. -/
def groupPeriodKeys (group : GroupConfig) (powerCache tankCache : EngineCache) :
    List String :=
  group.paths.foldl
    (fun acc path =>
      match groupItemFor group powerCache tankCache path with
      | some itemData => addKeys acc (itemData.periods.map Prod.fst)
      | none => acc)
    []

/-- `itemPeriod.consumed || 0`. -/
def periodConsumed : PeriodResult → ℚ
  | .tank c _ => c
  | _ => 0

/-- `itemPeriod.added || 0`. -/
def periodAdded : PeriodResult → ℚ
  | .tank _ a => a
  | _ => 0

/-- `itemPeriod.energy.consumedWh || 0` (0 when no energy record). -/
def periodEnergyConsumedWh : PeriodResult → ℚ
  | .power _ _ _ _ _ _ c _ => c
  | _ => 0

/-- `itemPeriod.energy.generatedWh || 0` (0 when no energy record). -/
def periodEnergyGeneratedWh : PeriodResult → ℚ
  | .power _ _ _ _ _ _ _ g => g
  | _ => 0

/-- One period total of one group. -/
def groupPeriodData (group : GroupConfig) (powerCache tankCache : EngineCache)
    (periodRange : String) : GroupPeriodData :=
  if group.type == "tankage" then
    let totals := group.paths.foldl
      (fun (acc : ℚ × ℚ) path =>
        match (lookupStr tankCache path).map (fun e => e.data) with
        | some itemData =>
          match lookupStr itemData.periods periodRange with
          | some itemPeriod =>
            (acc.1 + periodConsumed itemPeriod, acc.2 + periodAdded itemPeriod)
          | none => acc
        | none => acc)
      (0, 0)
    .tank periodRange totals.1 totals.2
  else if group.type == "power" then
    let totals := group.paths.foldl
      (fun (acc : ℚ × ℚ) path =>
        match (lookupStr powerCache path).map (fun e => e.data) with
        | some itemData =>
          match lookupStr itemData.periods periodRange with
          | some itemPeriod =>
            (acc.1 + periodEnergyConsumedWh itemPeriod,
             acc.2 + periodEnergyGeneratedWh itemPeriod)
          | none => acc
        | none => acc)
      (0, 0)
    .power periodRange totals.1 totals.2
  else .bare periodRange

/-- `UsageCoordinator.calculateGroups` as a group-cache transformer. -/
def calculateGroups (options : Options) (powerCache tankCache : EngineCache)
    (now : ℤ) (cache : GroupCache) : GroupCache :=
  (options.groups.getD []).foldl
    (fun c group =>
      let keys := groupPeriodKeys group powerCache tankCache
      let groupData : GroupData :=
        { id := group.id, name := group.name, type := group.type, paths := group.paths
          periods := keys.map (fun k => (k, groupPeriodData group powerCache tankCache k)) }
      if cacheEnabledOf options then assocSet c group.id ⟨groupData, now⟩ else c)
    cache

/-! ### Usage coordinator -/

/-- Coordinator state: the two boolean flags plus the three caches it
owns (the engine caches live in the engines, but the coordinator is
their only driver). -/
structure CoordState where
  isCalculating : Bool
  isReady : Bool
  powerCache : EngineCache
  tankCache : EngineCache
  groupCache : GroupCache

/-- State after the constructor: both flags false, caches empty. -/
def initCoordState : CoordState :=
  ⟨false, false, [], [], []⟩

/-- What one pass body (both engines plus group aggregation) produces:
the new caches and whether the pass's awaited work completed without
throwing. -/
structure PassEffect where
  powerCache : EngineCache
  tankCache : EngineCache
  groupCache : GroupCache
  success : Bool

/-- The guard check at the top of `UsageCoordinator.calculateAll`:
return unchanged (and do nothing) when a pass is in progress, else set
the in-progress flag.  The boolean reports whether the pass body will
run. -/
def coordBeginPass (s : CoordState) : CoordState × Bool :=
  if s.isCalculating then (s, false) else ({ s with isCalculating := true }, true)

/-- The tail of `UsageCoordinator.calculateAll`: install the pass body's
effect, set readiness only when the body succeeded, and always clear the
in-progress flag (the source's `finally`). -/
def coordFinishPass (s : CoordState) (eff : PassEffect) : CoordState :=
  { isCalculating := false
    isReady := s.isReady || eff.success
    powerCache := eff.powerCache
    tankCache := eff.tankCache
    groupCache := eff.groupCache }

/-- `UsageCoordinator.calculateAll`, for an arbitrary pass body.  The
boolean reports whether the engines were invoked. -/
def coordCalculateAll (body : CoordState → PassEffect) (s : CoordState) :
    CoordState × Bool :=
  let b := coordBeginPass s
  if b.2 then (coordFinishPass b.1 (body b.1), true) else (b.1, false)

/-- The real pass body: both engines then group aggregation, which in
the pure model never throws. -/
def enginesBody (backend : Backend) (options : Options) (now : ℤ)
    (s : CoordState) : PassEffect :=
  let pc := powerEngineCalculateAll backend options now s.powerCache
  let tc := tankEngineCalculateAll backend options now s.tankCache
  let gc := calculateGroups options pc tc now s.groupCache
  ⟨pc, tc, gc, true⟩

/-- A pass body aborted by an unrecoverable error before any cache
write: caches as found, no success. -/
def failedBody (s : CoordState) : PassEffect :=
  ⟨s.powerCache, s.tankCache, s.groupCache, false⟩

/-- The snapshot `UsageCoordinator.getUsageData` returns. -/
structure UsageSnapshot where
  timestamp : ℤ
  ready : Bool
  items : List (String × ItemUsage)
  groups : List (String × GroupData)
deriving Repr, DecidableEq

/-- JavaScript object spread `{...a, ...b}` on string-keyed objects:
keys of `a` in order with values overridden by `b` where present, then
the keys of `b` not in `a`. -/
def spreadMerge {α : Type} (a b : List (String × α)) : List (String × α) :=
  a.map (fun kv =>
    match lookupStr b kv.1 with
    | some v => (kv.1, v)
    | none => kv) ++
  b.filter (fun kv => (lookupStr a kv.1).isNone)

/-- `UsageCoordinator.getUsageData` (`now` models `Date.now()`). -/
def getUsageData (s : CoordState) (now : ℤ) : UsageSnapshot :=
  if !s.isReady then
    ⟨now, false, [], []⟩
  else
    ⟨now, true,
      spreadMerge (s.powerCache.map (fun kv => (kv.1, kv.2.data)))
        (s.tankCache.map (fun kv => (kv.1, kv.2.data))),
      s.groupCache.map (fun kv => (kv.1, kv.2.data))⟩

/-- `UsageCoordinator.getUsageForPath`: power lookup first, tankage
fallback. -/
def coordGetUsageForPath (s : CoordState) (path : String) : Option ItemUsage :=
  match (lookupStr s.powerCache path).map (fun e => e.data) with
  | some d => some d
  | none => (lookupStr s.tankCache path).map (fun e => e.data)

/-- `UsageCoordinator.stop`: both engines' `stop()` (which clear their
caches) plus `groupCache.clear()`; the flags are untouched. -/
def coordStop (s : CoordState) : CoordState :=
  { s with powerCache := [], tankCache := [], groupCache := [] }

/-! ### Specification-side formulations and concrete fixtures used by
the theorems -/

/-- Whether a period result is the insufficient-data record
(`insufficientData: true`). -/
def isInsufficientTagged : PeriodResult → Bool
  | .insufficient _ => true
  | _ => false

/-- Timestamp of the sample at index `j` (0 when out of range; only
used at in-range indices). -/
def tsAt (dataPoints : List Sample) (j : ℕ) : ℤ :=
  ((dataPoints.get? j).map Sample.timestamp).getD 0

/-- Value of the sample at index `j` (0 when out of range; only used at
in-range indices). -/
def valAt (dataPoints : List Sample) (j : ℕ) : ℚ :=
  ((dataPoints.get? j).map Sample.value).getD 0

/-- Specification-side window of a non-anchor index `i`: the indices
from the most recent anchor at or before `i` up to `i` whose timestamps
lie within the trailing 6-hour window of index `i`. -/
def windowIdxSet (dataPoints : List Sample) (i : ℕ) : Finset ℕ :=
  (Finset.Icc (refillStartIndex dataPoints i) i).filter
    (fun j => tsAt dataPoints i - SMOOTHING_WINDOW_MS ≤ tsAt dataPoints j)

/-- Specification-side smoothed value of a non-anchor index: the mean
of the sample values over `windowIdxSet`. -/
def specWindowMean (dataPoints : List Sample) (i : ℕ) : ℚ :=
  (Finset.sum (windowIdxSet dataPoints i) (valAt dataPoints)) /
    ((windowIdxSet dataPoints i).card : ℚ)

/-- A backend whose every call fails with message `"boom"`. -/
def bFail : Backend :=
  ⟨fun _ _ => .error "boom", fun _ _ _ => .error "boom"⟩

/-- A minimal configured power item with path `"foo"` and everything
else absent. -/
def itemFoo : PowerItem :=
  ⟨"foo", none, none, none, none, none⟩

/-- Twelve samples of 100 W at consecutive UTC hour marks of one UTC
day: they cover 12 distinct hourly buckets but a single daily bucket. -/
def pts12 : List Sample :=
  [⟨0, 100⟩, ⟨3600000, 100⟩, ⟨7200000, 100⟩, ⟨10800000, 100⟩,
   ⟨14400000, 100⟩, ⟨18000000, 100⟩, ⟨21600000, 100⟩, ⟨25200000, 100⟩,
   ⟨28800000, 100⟩, ⟨32400000, 100⟩, ⟨36000000, 100⟩, ⟨39600000, 100⟩]

/-- A backend serving `pts12` and the matching first/last raw samples
for every query. -/
def b12 : Backend :=
  ⟨fun _ _ => .ok ⟨some ⟨0, 100⟩, some ⟨39600000, 100⟩⟩, fun _ _ _ => .ok pts12⟩

/-- The power item whose single configured period is the 24-hour range
at 15-minute aggregation. -/
def item24 : PowerItem :=
  ⟨"foo", none, none, none, none, some [⟨"24h", "15m"⟩]⟩

/-- A minimal non-large configured tank item. -/
def smallTankItem : TankItem :=
  ⟨"tanks.freshWater.0.currentVolume", none, none, none, none, none, none⟩

/-- A flat baseline followed by a single-step increase of 12
gallon-equivalent ten minutes after the previous sample. -/
def dp3 : List Sample :=
  [⟨0, 1 / 10⟩, ⟨600000, 1 / 10⟩, ⟨1200000, 1 / 10 + 12 * GAL_TO_M3⟩]

/-- A backend whose first/last query succeeds but whose aggregated
query fails with message `"boom"`. -/
def bHalf : Backend :=
  ⟨fun _ _ => .ok ⟨some ⟨0, 1⟩, some ⟨1, 1⟩⟩, fun _ _ _ => .error "boom"⟩

/-- A backend serving only two samples inside one UTC hour, with the
matching first/last raw samples. -/
def bUnder : Backend :=
  ⟨fun _ _ => .ok ⟨some ⟨0, 100⟩, some ⟨60000, 100⟩⟩,
   fun _ _ _ => .ok [⟨0, 100⟩, ⟨60000, 100⟩]⟩

/-- Plugin options with nothing configured. -/
def emptyOptions : Options :=
  ⟨none, none, none, none⟩

/-- A coordinator state that is ready and idle with empty caches. -/
def readyEmptyState : CoordState :=
  ⟨false, true, [], [], []⟩

/-- An enabled power item configured with path `"p1"`. -/
def itemP1 : PowerItem :=
  ⟨"p1", none, none, none, none, some [⟨"1h", "1m"⟩]⟩

/-- A power item configured with `enabled: false`. -/
def itemPOff : PowerItem :=
  ⟨"pOff", none, none, none, some false, none⟩

/-- An enabled tankage item configured with path `"t1"`. -/
def itemT1 : TankItem :=
  ⟨"t1", none, none, none, none, none, some [⟨"24h", "15m"⟩]⟩

/-- Options with one enabled and one disabled power item and one
enabled tankage item. -/
def o1 : Options :=
  ⟨some [itemP1, itemPOff], some [itemT1], none, none⟩

/-! ## Theorems -/

/-- Auto-detection always yields one of the four recognised
directionality strings. -/
theorem autoDetect_recognized (path : String) :
    autoDetectDirectionalityType path = "producer" ∨
    autoDetectDirectionalityType path = "consumer" ∨
    autoDetectDirectionalityType path = "bidirectional-normal" ∨
    autoDetectDirectionalityType path = "bidirectional-reversed" := by
  simp only [autoDetectDirectionalityType]
  split_ifs <;> simp

/-- C1: the integration pass handles each consecutive pair as follows:
for producer/consumer directionality a negative pair average is
discarded into neither bucket (zero or positive averages are always
accumulated); otherwise the contribution is the earlier value times
elapsed hours when the elapsed time exceeds the gap threshold of
2 x aggregation-window minutes in milliseconds (hold-last-value), else
the trapezoidal average times elapsed hours; a positive contribution
goes to the positive bucket, otherwise its absolute value goes to the
negative bucket.  In particular samples (0 ms, 100 W) and
(180 000 ms, 80 W) under a 60 s aggregation window (gap threshold
120 000 ms) contribute exactly 5 Wh, not the trapezoidal 4.5 Wh. -/
theorem integration_pair_contribution (d aggregation : String)
    (acc : IntegrationTotals) (p1 p2 : Sample) :
    ((let gapThresholdMs := gapThresholdOf aggregation
      let timeDiffMs : ℚ := ((p2.timestamp - p1.timestamp : ℤ) : ℚ)
      let timeDiffHours : ℚ := timeDiffMs / (1000 * 60 * 60)
      let avgPower : ℚ := (p1.value + p2.value) / 2
      let contribution : ℚ :=
        if gapThresholdMs < timeDiffMs then p1.value * timeDiffHours
        else avgPower * timeDiffHours
      let step := integrateStep d gapThresholdMs acc p1 p2
      (step.positiveEnergyWh, step.negativeEnergyWh) =
        if (d = "producer" ∨ d = "consumer") ∧ avgPower < 0 then
          (acc.positiveEnergyWh, acc.negativeEnergyWh)
        else if 0 < contribution then
          (acc.positiveEnergyWh + contribution, acc.negativeEnergyWh)
        else
          (acc.positiveEnergyWh, acc.negativeEnergyWh + |contribution|)) ∧
      gapThresholdOf "60s" = 120000 ∧
      integrateSeries "consumer" (gapThresholdOf "60s") [⟨0, 100⟩, ⟨180000, 80⟩] =
        ⟨5, 5, 0, 1, 1 / 20, 0⟩ ∧
      (5 : ℚ) ≠ 9 / 2) := by
  refine ⟨?_, ?_, ?_, by norm_num⟩
  · simp only [integrateStep]
    split_ifs <;> first | rfl | tauto
  · norm_num [gapThresholdOf, parseAggregationWindow,
      show matchNumUnit "60s" = some (60, 's') from rfl]
  · norm_num [integrateSeries, integrateAux, integrateStep, gapThresholdOf,
      parseAggregationWindow, show matchNumUnit "60s" = some (60, 's') from rfl,
      initTotals]

/-- C2: `applyDirectionality` maps the four recognised directionality
values to the stated consumed/generated pairs, and any unrecognised
value falls back to the auto-detected directionality of the path in a
single retry. -/
theorem applyDirectionality_mapping (path : String) (posWh negWh : ℚ) :
    applyDirectionality path "producer" posWh negWh =
      ⟨0, posWh, "producer (explicit)"⟩ ∧
    applyDirectionality path "consumer" posWh negWh =
      ⟨posWh, 0, "consumer (explicit)"⟩ ∧
    applyDirectionality path "bidirectional-normal" posWh negWh =
      ⟨negWh, posWh, "bidirectional-normal (explicit)"⟩ ∧
    applyDirectionality path "bidirectional-reversed" posWh negWh =
      ⟨posWh, negWh, "bidirectional-reversed (explicit)"⟩ ∧
    ∀ d : String, d ≠ "producer" → d ≠ "consumer" → d ≠ "bidirectional-normal" →
      d ≠ "bidirectional-reversed" →
      applyDirectionality path d posWh negWh =
        applyDirectionality path (autoDetectDirectionalityType path) posWh negWh := by
  refine ⟨by simp [applyDirectionality, applyDirectionalityKnown],
    by simp [applyDirectionality, applyDirectionalityKnown],
    by simp [applyDirectionality, applyDirectionalityKnown],
    by simp [applyDirectionality, applyDirectionalityKnown], ?_⟩
  intro d h1 h2 h3 h4
  rw [applyDirectionality, if_neg (by tauto)]
  rw [applyDirectionality, if_pos (by rcases autoDetect_recognized path with h | h | h | h <;> simp [h])]

/-- Witness for C2: the unrecognised value `"garbage"` falls back to
the auto-detected directionality of `"foo"`. -/
theorem applyDirectionality_mapping_witness :
    applyDirectionality "foo" "garbage" 1 2 =
      applyDirectionality "foo" (autoDetectDirectionalityType "foo") 1 2 :=
  (applyDirectionality_mapping "foo" 1 2).2.2.2.2 "garbage"
    (by decide) (by decide) (by decide) (by decide)

/-- C3: when the in-progress flag is set, `calculateAll` returns at
once without invoking the engines; otherwise it sets the flag, runs the
pass body, always ends with the flag cleared (even when the pass fails),
so a near-simultaneous second call performs no engine invocation and a
later call can start a new pass. -/
theorem single_flight_guard (body : CoordState → PassEffect) (s : CoordState) :
    (s.isCalculating = true → coordCalculateAll body s = (s, false)) ∧
    (s.isCalculating = false →
      (coordBeginPass s).2 = true ∧
      coordCalculateAll body (coordBeginPass s).1 = ((coordBeginPass s).1, false) ∧
      (∀ eff : PassEffect, (coordFinishPass (coordBeginPass s).1 eff).isCalculating = false) ∧
      (∀ eff : PassEffect,
        (coordBeginPass (coordFinishPass (coordBeginPass s).1 eff)).2 = true) ∧
      coordCalculateAll body s =
        (coordFinishPass { s with isCalculating := true }
          (body { s with isCalculating := true }), true)) := by
  constructor
  · intro h
    simp [coordCalculateAll, coordBeginPass, h]
  · intro h
    refine ⟨by simp [coordBeginPass, h], ?_, ?_, ?_, ?_⟩
    · simp [coordCalculateAll, coordBeginPass, h]
    · intro eff
      simp [coordFinishPass]
    · intro eff
      simp [coordBeginPass, coordFinishPass]
    · simp [coordCalculateAll, coordBeginPass, h]

/-- Witness for C3: from the idle initial state, a second call arriving
mid-pass invokes nothing, and after the pass ends (here: by an error) a
new pass can begin. -/
theorem single_flight_guard_witness :
    coordCalculateAll failedBody (coordBeginPass initCoordState).1 =
      ((coordBeginPass initCoordState).1, false) ∧
    (coordBeginPass (coordFinishPass (coordBeginPass initCoordState).1
      (failedBody (coordBeginPass initCoordState).1))).2 = true := by
  have h := (single_flight_guard failedBody initCoordState).2 rfl
  exact ⟨h.2.1, h.2.2.2.1 _⟩

/-- C8: the readiness flag is false at construction, a finished pass
sets it exactly when the pass succeeded and never resets it, and after
a failed pass a reader is served the same snapshot as before. -/
theorem readiness_monotone (s : CoordState) (eff : PassEffect) (now : ℤ) :
    initCoordState.isReady = false ∧
    (coordFinishPass s eff).isReady = (s.isReady || eff.success) ∧
    (s.isCalculating = false →
      (coordCalculateAll failedBody s).1.isReady = s.isReady ∧
      getUsageData (coordCalculateAll failedBody s).1 now = getUsageData s now) := by
  refine ⟨rfl, rfl, ?_⟩
  intro h
  constructor
  · simp [coordCalculateAll, coordBeginPass, coordFinishPass, failedBody, h]
  · simp [coordCalculateAll, coordBeginPass, coordFinishPass, failedBody, h, getUsageData]

/-- Witness for C8: a failed pass on a ready coordinator leaves it
ready and leaves the served snapshot unchanged. -/
theorem readiness_monotone_witness :
    (coordCalculateAll failedBody readyEmptyState).1.isReady = true ∧
    getUsageData (coordCalculateAll failedBody readyEmptyState).1 7 =
      getUsageData readyEmptyState 7 := by
  have h := (readiness_monotone readyEmptyState (failedBody readyEmptyState) 7).2.2 rfl
  exact ⟨h.1, h.2⟩

/-- C10: `stop()` clears the power, tankage and group caches but leaves
both flags unchanged, so after a completed pass followed by `stop()` a
reader gets `ready: true` with an empty items mapping. -/
theorem stop_clears_caches_keeps_ready (s : CoordState) (now : ℤ) :
    (coordStop s).isReady = s.isReady ∧
    (coordStop s).isCalculating = s.isCalculating ∧
    (coordStop s).powerCache = [] ∧
    (coordStop s).tankCache = [] ∧
    (coordStop s).groupCache = [] ∧
    (s.isReady = true → getUsageData (coordStop s) now = ⟨now, true, [], []⟩) ∧
    (∀ (backend : Backend) (options : Options) (now2 : ℤ), s.isCalculating = false →
      getUsageData
        (coordStop (coordCalculateAll (enginesBody backend options now2) s).1) now =
        ⟨now, true, [], []⟩) := by
  refine ⟨rfl, rfl, rfl, rfl, rfl, ?_, ?_⟩
  · intro h
    simp [getUsageData, coordStop, h, spreadMerge]
  · intro backend options now2 h
    simp [coordCalculateAll, coordBeginPass, coordFinishPass, enginesBody, coordStop,
      getUsageData, h, spreadMerge]

/-- Witness for C10: a completed pass followed by `stop()` serves a
ready snapshot with no items. -/
theorem stop_clears_caches_keeps_ready_witness :
    getUsageData
      (coordStop (coordCalculateAll (enginesBody bFail emptyOptions 0) initCoordState).1) 7 =
      ⟨7, true, [], []⟩ :=
  (stop_clears_caches_keeps_ready initCoordState 7).2.2.2.2.2.2 bFail emptyOptions 0 rfl

/-- C4 counterexample: a `getFirstAndLast` backend failure is caught by
the per-item catch of `PowerEngine.calculateForItem`, which records
`{ error: message }` — a period result that is not tagged
`insufficientData: true`, contradicting the claim's shape for that
failure. -/
theorem power_item_error_not_insufficient :
    lookupStr (powerCalculateForItem bFail itemFoo).periods "24h" =
      some (PeriodResult.errorTag "boom") ∧
    isInsufficientTagged (PeriodResult.errorTag "boom") = false :=
  ⟨rfl, rfl⟩

/-- C4 (amended): a failing aggregated query inside the per-period try
becomes `insufficientData: true` with reason `"Error: "` plus the
message; a failing first/last query escapes to the per-item catch and
becomes the `{ error: message }` period entry (not tagged
insufficient); each period's entry depends only on that period's two
backend calls; and every configured period of an item always receives
exactly one entry, so sibling periods and items always complete. -/
theorem power_error_isolation :
    (∀ (backend : Backend) (item : PowerItem) (period : PeriodConfig) (fl : FirstLast)
        (f l : Sample) (msg : String),
      backend.getFirstAndLast item.path ("-" ++ period.range) = .ok fl →
      fl.first = some f → fl.last = some l →
      backend.queryPath item.path ("-" ++ period.range) period.aggregation = .error msg →
      powerCalculateUsageForPeriod backend item period =
        .ok (.insufficient ("Error: " ++ msg))) ∧
    (∀ (backend : Backend) (item : PowerItem) (period : PeriodConfig) (msg : String),
      backend.getFirstAndLast item.path ("-" ++ period.range) = .error msg →
      powerPeriodEntry backend item period = (period.range, .errorTag msg)) ∧
    (∀ (b1 b2 : Backend) (item : PowerItem) (period : PeriodConfig),
      b1.getFirstAndLast item.path ("-" ++ period.range) =
        b2.getFirstAndLast item.path ("-" ++ period.range) →
      b1.queryPath item.path ("-" ++ period.range) period.aggregation =
        b2.queryPath item.path ("-" ++ period.range) period.aggregation →
      powerPeriodEntry b1 item period = powerPeriodEntry b2 item period) ∧
    (∀ (backend : Backend) (item : PowerItem),
      ((powerCalculateForItem backend item).periods).map Prod.fst =
        (item.periods.getD defaultPowerPeriods).map PeriodConfig.range) := by
  refine ⟨?_, ?_, ?_, ?_⟩
  · intro backend item period fl f l msg hfl hf hl hq
    simp only [powerCalculateUsageForPeriod, hfl, hf, hl, hq]
  · intro backend item period msg h
    simp only [powerPeriodEntry, powerCalculateUsageForPeriod, h]
  · intro b1 b2 item period h1 h2
    simp only [powerPeriodEntry, powerCalculateUsageForPeriod, h1, h2]
  · intro backend item
    simp only [powerCalculateForItem, List.map_map]
    exact List.map_congr_left fun p _ => rfl

/-- Witness for C4: both failure shapes at concrete backends. -/
theorem power_error_isolation_witness :
    powerCalculateUsageForPeriod bHalf itemFoo ⟨"24h", "15m"⟩ =
      .ok (.insufficient "Error: boom") ∧
    powerPeriodEntry bFail itemFoo ⟨"24h", "15m"⟩ = ("24h", .errorTag "boom") :=
  ⟨power_error_isolation.1 bHalf itemFoo ⟨"24h", "15m"⟩ ⟨some ⟨0, 1⟩, some ⟨1, 1⟩⟩
      ⟨0, 1⟩ ⟨1, 1⟩ "boom" rfl rfl rfl rfl,
   power_error_isolation.2.1 bFail itemFoo ⟨"24h", "15m"⟩ "boom" rfl⟩

/-- C5 counterexample: for the `"24h"` range the coverage check buckets
by UTC day with exactly one expected bucket, so an aggregated sequence
covering only 12 of 24 hours of the day (12 distinct hourly buckets,
1 daily bucket) passes the coverage check and yields a populated power
result, not `insufficientData: true`. -/
theorem coverage_24h_example_passes :
    uniqueHourCount pts12 = 12 ∧
    uniqueDayCount pts12 = 1 ∧
    powerCalculateUsageForPeriod b12 item24 ⟨"24h", "15m"⟩ =
      .ok (.power "24h" 0 39600000 100 100 0 0 1100) ∧
    isInsufficientTagged (.power "24h" 0 39600000 100 100 0 0 1100) = false := by
  refine ⟨by decide, by decide, ?_, rfl⟩
  have hcov : powerCoverage "24h" pts12 = (1, 1, "days") := by
    norm_num [powerCoverage, show parseTimeRange "24h" = 24 from by decide,
      show uniqueDayCount pts12 = 1 from by decide]
  have hint : integrateSeries "bidirectional-normal" (gapThresholdOf "15m") pts12 =
      ⟨1100, 1100, 0, 11, 11, 0⟩ := by
    norm_num [pts12, integrateSeries, integrateAux, integrateStep, initTotals,
      show gapThresholdOf "15m" = 1800000 from by
        norm_num [gapThresholdOf, show parseAggregationWindow "15m" = 15 from by decide]]
  norm_num [powerCalculateUsageForPeriod, b12, effectiveDirectionalityOf, item24,
    show autoDetectDirectionalityType "foo" = "bidirectional-normal" from by decide,
    hcov, hint, show pts12.length = 12 from by decide,
    applyDirectionality, applyDirectionalityKnown]
  decide

/-- C5 (amended): the coverage computation buckets timestamps into UTC
calendar days with expected count `ceil(rangeHours / 24)` when the
parsed range is at least 24 hours, and into UTC calendar hours with
expected count `ceil(rangeHours)` below that; and — given first/last
samples, a successful aggregated query and at least two points — the
period result is the insufficient-data record reporting "X/Y buckets"
exactly when the distinct-bucket count is below the expected count. -/
theorem power_coverage_gate :
    (∀ (range : String) (dataPoints : List Sample),
      (24 ≤ parseTimeRange range →
        powerCoverage range dataPoints =
          (uniqueDayCount dataPoints, ⌈parseTimeRange range / 24⌉, "days")) ∧
      (parseTimeRange range < 24 →
        powerCoverage range dataPoints =
          (uniqueHourCount dataPoints, ⌈parseTimeRange range⌉, "hours"))) ∧
    (∀ (backend : Backend) (item : PowerItem) (period : PeriodConfig) (fl : FirstLast)
        (f l : Sample) (pts : List Sample),
      backend.getFirstAndLast item.path ("-" ++ period.range) = .ok fl →
      fl.first = some f → fl.last = some l →
      backend.queryPath item.path ("-" ++ period.range) period.aggregation = .ok pts →
      2 ≤ pts.length →
      (((powerCoverage period.range pts).1 : ℤ) < (powerCoverage period.range pts).2.1 ↔
        powerCalculateUsageForPeriod backend item period =
          .ok (.insufficient ("Insufficient coverage (" ++
            toString (powerCoverage period.range pts).1 ++ "/" ++
            toString (powerCoverage period.range pts).2.1 ++ " " ++
            (powerCoverage period.range pts).2.2 ++ ")")))) := by
  constructor
  · intro range dataPoints
    constructor
    · intro h
      simp [powerCoverage, h]
    · intro h
      simp [powerCoverage, not_le.mpr h]
  · intro backend item period fl f l pts hfl hf hl hq hlen
    simp only [powerCalculateUsageForPeriod, hfl, hf, hl, hq]
    rw [if_neg (by omega)]
    by_cases hc : ((powerCoverage period.range pts).1 : ℤ) < (powerCoverage period.range pts).2.1
    · rw [if_pos hc]
      simp [hc]
    · rw [if_neg hc]
      simp [hc]

/-- Witness for C5: two samples inside one UTC hour for a 2-hour range
cover 1 of 2 expected hourly buckets and are reported insufficient. -/
theorem power_coverage_gate_witness :
    powerCalculateUsageForPeriod bUnder itemFoo ⟨"2h", "1m"⟩ =
      .ok (.insufficient "Insufficient coverage (1/2 hours)") := by
  have h := (power_coverage_gate.2 bUnder itemFoo ⟨"2h", "1m"⟩
    ⟨some ⟨0, 100⟩, some ⟨60000, 100⟩⟩ ⟨0, 100⟩ ⟨60000, 100⟩
    [⟨0, 100⟩, ⟨60000, 100⟩] rfl rfl rfl rfl (by decide)).mp (by decide)
  simpa [show powerCoverage "2h" [⟨0, 100⟩, ⟨60000, 100⟩] = (1, 2, "hours") from rfl]
    using h

/-- C6: in the change-detection walk, a sample closer than 2 minutes to
the tracked point is skipped without advancing the tracked point; with
sufficient spacing, a decrease is always added to consumed, an increase
is added to `added` only when it meets both the size threshold
(1 gallon-equivalent, or 5 for large tanks) and the 5-minute duration
gate, and otherwise lands in neither bucket; the tracked point then
advances either way.  In particular a 0.5 gallon-equivalent increase
after 10 minutes on a non-large tank is counted in neither bucket. -/
theorem tank_walk_thresholds (item : TankItem) (st : WalkState) (currPoint : Sample) :
    (currPoint.timestamp - st.lastTrackedPoint.timestamp < MIN_TIME_BETWEEN_POINTS_MS →
      tankWalkStep (additionThresholdM3Of item) st currPoint = st) ∧
    (MIN_TIME_BETWEEN_POINTS_MS ≤ currPoint.timestamp - st.lastTrackedPoint.timestamp →
      (tankWalkStep (additionThresholdM3Of item) st currPoint).lastTrackedPoint =
        currPoint ∧
      (currPoint.value - st.lastTrackedPoint.value < 0 →
        tankWalkStep (additionThresholdM3Of item) st currPoint =
          ⟨currPoint,
           st.totalConsumed + |currPoint.value - st.lastTrackedPoint.value|,
           st.totalAdded⟩) ∧
      (0 < currPoint.value - st.lastTrackedPoint.value →
        additionThresholdM3Of item ≤ currPoint.value - st.lastTrackedPoint.value →
        ADDITION_MIN_DURATION_MS ≤ currPoint.timestamp - st.lastTrackedPoint.timestamp →
        tankWalkStep (additionThresholdM3Of item) st currPoint =
          ⟨currPoint, st.totalConsumed,
           st.totalAdded + (currPoint.value - st.lastTrackedPoint.value)⟩) ∧
      (0 < currPoint.value - st.lastTrackedPoint.value →
        ¬(additionThresholdM3Of item ≤ currPoint.value - st.lastTrackedPoint.value ∧
          ADDITION_MIN_DURATION_MS ≤ currPoint.timestamp - st.lastTrackedPoint.timestamp) →
        tankWalkStep (additionThresholdM3Of item) st currPoint =
          ⟨currPoint, st.totalConsumed, st.totalAdded⟩)) ∧
    additionThresholdM3Of item =
      (if item.largeTank.getD false then 5 else 1) * GAL_TO_M3 ∧
    tankWalkStep (additionThresholdM3Of smallTankItem) ⟨⟨0, 0⟩, 0, 0⟩
      ⟨600000, GAL_TO_M3 / 2⟩ = ⟨⟨600000, GAL_TO_M3 / 2⟩, 0, 0⟩ ∧
    processDataPoints [⟨0, 1⟩, ⟨600000, 1 + GAL_TO_M3 / 2⟩] smallTankItem = ⟨0, 0⟩ := by
  refine ⟨?_, ?_, rfl, ?_, ?_⟩
  · intro h
    simp only [tankWalkStep]
    rw [if_pos h]
  · intro h
    have h' : ¬(currPoint.timestamp - st.lastTrackedPoint.timestamp <
        MIN_TIME_BETWEEN_POINTS_MS) := not_lt.mpr h
    refine ⟨?_, ?_, ?_, ?_⟩
    · simp only [tankWalkStep]
      rw [if_neg h']
      split_ifs <;> rfl
    · intro hd
      simp only [tankWalkStep]
      rw [if_neg h', if_neg (not_lt.mpr hd.le), if_pos hd]
    · intro hd hq hdur
      simp only [tankWalkStep]
      rw [if_neg h', if_pos hd, if_pos ⟨hq, hdur⟩]
    · intro hd hn
      simp only [tankWalkStep]
      rw [if_neg h', if_pos hd, if_neg hn]
  · norm_num [tankWalkStep, additionThresholdM3Of, smallTankItem,
      MIN_TIME_BETWEEN_POINTS_MS, ADDITION_MIN_DURATION_MS, GAL_TO_M3,
      SMALL_TANK_ADDITION_GAL, LARGE_TANK_ADDITION_GAL]
  · have hsm : smoothPoints [⟨0, 1⟩, ⟨600000, 1 + GAL_TO_M3 / 2⟩] =
        [⟨0, 1⟩, ⟨600000, 1 + GAL_TO_M3 / 4⟩] := by
      norm_num [smoothPoints, List.enum, smoothedValue, largeRefillAt, refillStartIndex,
        SMOOTHING_WINDOW_MS, LARGE_REFILL_THRESHOLD_M3, LARGE_REFILL_THRESHOLD_GAL,
        GAL_TO_M3, List.range_succ, List.filterMap_cons, List.filter_cons,
        List.getElem?_cons_zero, List.getElem?_cons_succ]
    simp only [processDataPoints, hsm]
    norm_num [tankWalkStep, additionThresholdM3Of, smallTankItem,
      MIN_TIME_BETWEEN_POINTS_MS, ADDITION_MIN_DURATION_MS, GAL_TO_M3,
      SMALL_TANK_ADDITION_GAL, LARGE_TANK_ADDITION_GAL]

/-- Witness for C6: the 10-minute 0.5 gallon-equivalent increase
advances the tracked point but updates neither bucket. -/
theorem tank_walk_thresholds_witness :
    tankWalkStep (additionThresholdM3Of smallTankItem) ⟨⟨0, 0⟩, 0, 0⟩
      ⟨600000, GAL_TO_M3 / 2⟩ = ⟨⟨600000, GAL_TO_M3 / 2⟩, 0, 0⟩ := by
  have h := (tank_walk_thresholds smallTankItem ⟨⟨0, 0⟩, 0, 0⟩
    ⟨600000, GAL_TO_M3 / 2⟩).2.1 (by decide)
  exact h.2.2.2 (by norm_num [GAL_TO_M3])
    (by norm_num [additionThresholdM3Of, smallTankItem, GAL_TO_M3,
      SMALL_TANK_ADDITION_GAL])

/-- The scanned anchor index never exceeds the scan start. -/
theorem refillStartIndex_le (dp : List Sample) : ∀ i, refillStartIndex dp i ≤ i := by
  intro i
  induction i with
  | zero => simp [refillStartIndex]
  | succ k ih =>
    simp only [refillStartIndex]
    split_ifs with h
    · exact le_refl _
    · exact ih.trans (Nat.le_succ k)

/-- The scanned anchor index is a large-refill index or the fallback 0. -/
theorem refillStartIndex_anchor_or_zero (dp : List Sample) :
    ∀ i, largeRefillAt dp (refillStartIndex dp i) = true ∨ refillStartIndex dp i = 0 := by
  intro i
  induction i with
  | zero => exact Or.inr rfl
  | succ k ih =>
    simp only [refillStartIndex]
    split_ifs with h
    · exact Or.inl h
    · exact ih

/-- No large-refill index lies strictly between the scanned anchor
index and the scan start: the scan finds the most recent anchor. -/
theorem refillStartIndex_greatest (dp : List Sample) :
    ∀ i k, refillStartIndex dp i < k → k ≤ i → largeRefillAt dp k = false := by
  intro i
  induction i with
  | zero => intro k h1 h2; omega
  | succ n ih =>
    intro k h1 h2
    by_cases ha : largeRefillAt dp (n + 1) = true
    · rw [refillStartIndex, if_pos ha] at h1
      omega
    · rw [refillStartIndex, if_neg ha] at h1
      rcases Nat.lt_succ_iff_lt_or_eq.mp (Nat.lt_succ_of_le h2) with h | h
      · exact ih k h1 (by omega)
      · rw [h]
        exact Bool.not_eq_true _ |>.mp ha

/-- Looking up a list of in-range indices and filtering the samples by
timestamp is the same as filtering the indices by their timestamps. -/
theorem filterMap_window_eq (dp : List Sample) (ws : ℤ) :
    ∀ l : List ℕ, (∀ j ∈ l, j < dp.length) →
      (((l.filterMap dp.get?).filter (fun p => ws ≤ p.timestamp)).map Sample.value =
        (l.filter (fun j => ws ≤ tsAt dp j)).map (valAt dp) ∧
      ((l.filterMap dp.get?).filter (fun p => ws ≤ p.timestamp)).length =
        (l.filter (fun j => ws ≤ tsAt dp j)).length) := by
  intro l
  induction l with
  | nil => intro _; exact ⟨rfl, rfl⟩
  | cons j t ih =>
    intro hmem
    have hj : j < dp.length := hmem j (List.mem_cons_self j t)
    obtain ⟨p, hp⟩ : ∃ p, dp.get? j = some p := by
      rw [List.get?_eq_get hj]; exact ⟨_, rfl⟩
    have ht := ih (fun k hk => hmem k (List.mem_cons_of_mem _ hk))
    have hp2 : dp[j]? = some p := by
      rw [← List.get?_eq_getElem?]; exact hp
    have hts : tsAt dp j = p.timestamp := by simp [tsAt, hp2]
    have hval : valAt dp j = p.value := by simp [valAt, hp2]
    by_cases hc : ws ≤ p.timestamp
    · simp [List.filterMap_cons, hp2, List.filter_cons, hc, hts, hval, ht.1, ht.2]
    · simp [List.filterMap_cons, hp2, List.filter_cons, hc, hts, hval, ht.1, ht.2]

/-- The smoothed value of a non-anchor in-range index is the mean over
the specification-side window `windowIdxSet`. -/
theorem smoothedValue_eq_specWindowMean (dp : List Sample) (i : ℕ)
    (hi : i < dp.length) (hna : largeRefillAt dp i = false) :
    smoothedValue dp i = specWindowMean dp i := by
  obtain ⟨c, hc⟩ : ∃ c, dp.get? i = some c := by
    rw [List.get?_eq_get hi]; exact ⟨_, rfl⟩
  have hc2 : dp[i]? = some c := by rw [← List.get?_eq_getElem?]; exact hc
  have hcs : tsAt dp i = c.timestamp := by simp [tsAt, hc2]
  have key := filterMap_window_eq dp (c.timestamp - SMOOTHING_WINDOW_MS)
    ((List.range (i + 1)).filter (fun j => decide (refillStartIndex dp i ≤ j)))
    (by
      intro j hj
      have := List.mem_range.mp (List.mem_filter.mp hj).1
      omega)
  have hnd : (((List.range (i + 1)).filter
        (fun j => decide (refillStartIndex dp i ≤ j))).filter
      (fun j => decide (c.timestamp - SMOOTHING_WINDOW_MS ≤ tsAt dp j))).Nodup :=
    ((List.nodup_range _).filter _).filter _
  have hfin : (((List.range (i + 1)).filter
        (fun j => decide (refillStartIndex dp i ≤ j))).filter
      (fun j => decide (c.timestamp - SMOOTHING_WINDOW_MS ≤ tsAt dp j))).toFinset =
      windowIdxSet dp i := by
    ext k
    simp only [List.mem_toFinset, List.mem_filter, List.mem_range, windowIdxSet,
      Finset.mem_filter, Finset.mem_Icc, decide_eq_true_eq, hcs]
    constructor
    · rintro ⟨⟨h1, h2⟩, h3⟩
      exact ⟨⟨h2, by omega⟩, h3⟩
    · rintro ⟨⟨h1, h2⟩, h3⟩
      exact ⟨⟨by omega, h1⟩, h3⟩
  have hsum := List.sum_toFinset (valAt dp) hnd
  have hcard := List.toFinset_card_of_nodup hnd
  rw [hfin] at hsum hcard
  simp only [smoothedValue, hc, hna, Bool.false_eq_true, if_false]
  simp only [specWindowMean]
  rw [hsum, hcard, ← key.1, ← key.2]

/-- C7: every index whose raw single-step increase reaches the 10
gallon-equivalent threshold is an anchor and keeps its raw value in the
smoothed sequence; the anchor scan returns the most recent anchor at or
before the index (or 0 when none exists); every non-anchor sample's
smoothed value is the mean over its trailing 6-hour window restricted
to start at that anchor; and the concrete 12 gallon-equivalent
single-step increase is an unsmoothed anchor that the subsequent walk
counts fully as added. -/
theorem smoothing_refill_spec :
    LARGE_REFILL_THRESHOLD_M3 = 10 * GAL_TO_M3 ∧
    (∀ (dp : List Sample) (i : ℕ) (curr prev : Sample),
      dp.get? i = some curr → dp.get? (i - 1) = some prev → 1 ≤ i →
      LARGE_REFILL_THRESHOLD_M3 ≤ curr.value - prev.value →
      largeRefillAt dp i = true ∧ smoothedValue dp i = curr.value) ∧
    (∀ (dp : List Sample) (i : ℕ),
      refillStartIndex dp i ≤ i ∧
      (largeRefillAt dp (refillStartIndex dp i) = true ∨ refillStartIndex dp i = 0) ∧
      ∀ k, refillStartIndex dp i < k → k ≤ i → largeRefillAt dp k = false) ∧
    (∀ (dp : List Sample) (i : ℕ), i < dp.length → largeRefillAt dp i = false →
      smoothedValue dp i = specWindowMean dp i) ∧
    (largeRefillAt dp3 2 = true ∧
     smoothedValue dp3 2 = 1 / 10 + 12 * GAL_TO_M3 ∧
     processDataPoints dp3 smallTankItem = ⟨0, 12 * GAL_TO_M3⟩) := by
  refine ⟨rfl, ?_, ?_, ?_, ?_, ?_, ?_⟩
  · intro dp i curr prev hc hp h1 hthr
    have hc2 : dp[i]? = some curr := by rw [← List.get?_eq_getElem?]; exact hc
    have hp2 : dp[i - 1]? = some prev := by rw [← List.get?_eq_getElem?]; exact hp
    have hanchor : largeRefillAt dp i = true := by
      simp [largeRefillAt, hc2, hp2, h1, hthr]
    exact ⟨hanchor, by simp [smoothedValue, hc2, hanchor]⟩
  · intro dp i
    exact ⟨refillStartIndex_le dp i, refillStartIndex_anchor_or_zero dp i,
      refillStartIndex_greatest dp i⟩
  · intro dp i hi hna
    exact smoothedValue_eq_specWindowMean dp i hi hna
  · norm_num [largeRefillAt, dp3, LARGE_REFILL_THRESHOLD_M3, LARGE_REFILL_THRESHOLD_GAL,
      GAL_TO_M3, List.getElem?_cons_zero, List.getElem?_cons_succ]
  · have ha : largeRefillAt dp3 2 = true := by
      norm_num [largeRefillAt, dp3, LARGE_REFILL_THRESHOLD_M3, LARGE_REFILL_THRESHOLD_GAL,
        GAL_TO_M3, List.getElem?_cons_zero, List.getElem?_cons_succ]
    simp [smoothedValue, show dp3[2]? = some ⟨1200000, 1 / 10 + 12 * GAL_TO_M3⟩ from rfl, ha]
  · have hsm : smoothPoints dp3 =
        [⟨0, 1 / 10⟩, ⟨600000, 1 / 10⟩, ⟨1200000, 1 / 10 + 12 * GAL_TO_M3⟩] := by
      norm_num [smoothPoints, dp3, List.enum, smoothedValue, largeRefillAt, refillStartIndex,
        SMOOTHING_WINDOW_MS, LARGE_REFILL_THRESHOLD_M3, LARGE_REFILL_THRESHOLD_GAL,
        GAL_TO_M3, List.range_succ, List.filterMap_cons, List.filter_cons,
        List.getElem?_cons_zero, List.getElem?_cons_succ]
    simp only [processDataPoints, hsm]
    norm_num [tankWalkStep, additionThresholdM3Of, smallTankItem,
      MIN_TIME_BETWEEN_POINTS_MS, ADDITION_MIN_DURATION_MS, GAL_TO_M3,
      SMALL_TANK_ADDITION_GAL, LARGE_TANK_ADDITION_GAL]

/-- Witness for C7: the 12 gallon-equivalent step of `dp3` is an anchor
keeping its raw value, and the non-anchor index 0 is a window mean. -/
theorem smoothing_refill_spec_witness :
    (largeRefillAt dp3 2 = true ∧ smoothedValue dp3 2 = 1 / 10 + 12 * GAL_TO_M3) ∧
    smoothedValue dp3 0 = specWindowMean dp3 0 :=
  ⟨smoothing_refill_spec.2.1 dp3 2 ⟨1200000, 1 / 10 + 12 * GAL_TO_M3⟩ ⟨600000, 1 / 10⟩
      rfl rfl (by norm_num)
      (by norm_num [LARGE_REFILL_THRESHOLD_M3, LARGE_REFILL_THRESHOLD_GAL, GAL_TO_M3]),
   smoothing_refill_spec.2.2.2.1 dp3 0 (by norm_num [dp3]) (by decide)⟩

/-- Lookup in the empty association list. -/
theorem lookupStr_nil {α : Type} (k : String) :
    lookupStr ([] : List (String × α)) k = none := rfl

/-- Lookup steps through a cons cell. -/
theorem lookupStr_cons {α : Type} (kv : String × α) (l : List (String × α)) (k : String) :
    lookupStr (kv :: l) k = if kv.1 == k then some kv.2 else lookupStr l k := by
  by_cases h : kv.1 == k
  · simp [lookupStr, List.find?_cons, h]
  · simp [lookupStr, List.find?_cons, h]

/-- Lookup over an append prefers the first list. -/
theorem lookupStr_append {α : Type} (l1 l2 : List (String × α)) (k : String) :
    lookupStr (l1 ++ l2) k =
      match lookupStr l1 k with
      | some v => some v
      | none => lookupStr l2 k := by
  induction l1 with
  | nil => simp [lookupStr_nil]
  | cons kv t ih =>
    by_cases h : kv.1 == k
    · simp [List.cons_append, lookupStr_cons, h]
    · simp [List.cons_append, lookupStr_cons, h, ih]

/-- `Map.set` then `Map.get` of the same key yields the written value. -/
theorem lookupStr_assocSet_self {α : Type} (c : List (String × α)) (k : String) (v : α) :
    lookupStr (assocSet c k v) k = some v := by
  rw [assocSet]
  split_ifs with h
  · induction c with
    | nil => simp at h
    | cons hd tl ih =>
      by_cases hh : hd.1 == k
      · have he : hd.1 = k := by simpa using hh
        simp [List.map_cons, lookupStr_cons, he]
      · have he : ¬hd.1 = k := by simpa using hh
        have h' : tl.any (fun kv => kv.1 == k) = true := by
          simp only [List.any_cons, hh, Bool.false_or] at h
          exact h
        simpa [List.map_cons, lookupStr_cons, he] using ih h'
  · induction c with
    | nil => simp [lookupStr_cons]
    | cons hd tl ih =>
      have hh : ¬hd.1 = k := by
        simp only [List.any_cons, Bool.or_eq_true, not_or] at h
        simpa using h.1
      have h' : ¬tl.any (fun kv => kv.1 == k) = true := by
        simp only [List.any_cons, Bool.or_eq_true, not_or] at h
        exact h.2
      simpa [List.cons_append, lookupStr_cons, hh] using ih h'

/-- Replacing the entry of key `k` leaves lookups of other keys alone. -/
theorem lookupStr_map_replace_other {α : Type} (k k' : String) (v : α)
    (hkk : ¬k = k') :
    ∀ c : List (String × α),
      lookupStr (c.map (fun kv => if kv.1 == k then (k, v) else kv)) k' =
        lookupStr c k' := by
  intro c
  induction c with
  | nil => rfl
  | cons hd tl ih =>
    simp only [beq_iff_eq] at ih
    by_cases hh : hd.1 == k
    · have he : hd.1 = k := by simpa using hh
      have hd' : ¬hd.1 = k' := by rw [he]; exact hkk
      simp [List.map_cons, lookupStr_cons, he, hkk, hd', ih]
    · have he : ¬hd.1 = k := by simpa using hh
      simp [List.map_cons, lookupStr_cons, he, ih]

/-- `Map.set` leaves lookups of other keys alone. -/
theorem lookupStr_assocSet_other {α : Type} (c : List (String × α)) (k k' : String)
    (v : α) (h : k' ≠ k) :
    lookupStr (assocSet c k v) k' = lookupStr c k' := by
  have hkk : ¬k = k' := fun he => h he.symm
  rw [assocSet]
  split_ifs with hany
  · exact lookupStr_map_replace_other k k' v hkk c
  · cases hc : lookupStr c k' with
    | some w => simp [lookupStr_append, hc]
    | none => simp [lookupStr_append, hc, lookupStr_cons, lookupStr_nil, hkk]

/-- A fold of `Map.set` writes leaves absent keys absent. -/
theorem lookupStr_foldl_not_mem {α β : Type} (key : β → String) (val : β → α) :
    ∀ (items : List β) (c : List (String × α)) (p : String),
      (∀ it ∈ items, key it ≠ p) →
      lookupStr (items.foldl (fun acc it => assocSet acc (key it) (val it)) c) p =
        lookupStr c p := by
  intro items
  induction items with
  | nil => intro c p _; rfl
  | cons it tl ih =>
    intro c p h
    simp only [List.foldl_cons]
    rw [ih _ p (fun x hx => h x (List.mem_cons_of_mem _ hx)),
      lookupStr_assocSet_other _ _ _ _ (Ne.symm (h it (List.mem_cons_self _ _)))]

/-- A fold of `Map.set` writes makes every written key present. -/
theorem lookupStr_foldl_mem {α β : Type} (key : β → String) (val : β → α) :
    ∀ (items : List β) (c : List (String × α)) (p : String),
      (∃ it ∈ items, key it = p) →
      ∃ v, lookupStr (items.foldl (fun acc it => assocSet acc (key it) (val it)) c) p =
        some v := by
  intro items
  induction items with
  | nil => intro c p h; simp at h
  | cons it tl ih =>
    intro c p h
    by_cases hmem : ∃ x ∈ tl, key x = p
    · simp only [List.foldl_cons]
      exact ih _ p hmem
    · have hit : key it = p := by
        rcases h with ⟨x, hx, he⟩
        rcases List.mem_cons.mp hx with h1 | h1
        · rw [← h1]; exact he
        · exact absurd ⟨x, h1, he⟩ hmem
      have hno : ∀ x ∈ tl, key x ≠ p := fun x hx he => hmem ⟨x, hx, he⟩
      simp only [List.foldl_cons]
      refine ⟨val it, ?_⟩
      rw [lookupStr_foldl_not_mem key val tl _ p hno, ← hit,
        lookupStr_assocSet_self]

/-- Mapping the values of an association list commutes with lookup. -/
theorem lookupStr_map_data {α γ : Type} (g : α → γ) :
    ∀ (c : List (String × α)) (p : String),
      lookupStr (c.map (fun kv => (kv.1, g kv.2))) p = (lookupStr c p).map g := by
  intro c p
  induction c with
  | nil => rfl
  | cons hd tl ih =>
    by_cases hh : hd.1 = p
    · simp [List.map_cons, lookupStr_cons, hh]
    · simp [List.map_cons, lookupStr_cons, hh, ih]

/-- Lookup in the overridden first half of an object spread. -/
theorem lookupStr_map_override {α : Type} (b : List (String × α)) :
    ∀ (a : List (String × α)) (k : String),
      lookupStr (a.map (fun kv =>
        match lookupStr b kv.1 with
        | some v => (kv.1, v)
        | none => kv)) k =
      match lookupStr a k with
      | some v =>
        match lookupStr b k with
        | some w => some w
        | none => some v
      | none => none := by
  intro a
  induction a with
  | nil => intro k; rfl
  | cons hd tl ih =>
    intro k
    by_cases hh : hd.1 = k
    · cases hb : lookupStr b k with
      | some w => simp [List.map_cons, lookupStr_cons, hh, hb]
      | none => simp [List.map_cons, lookupStr_cons, hh, hb]
    · have := ih k
      cases hb : lookupStr b hd.1 with
      | some w => simp [List.map_cons, lookupStr_cons, hh, hb, this]
      | none => simp [List.map_cons, lookupStr_cons, hh, hb, this]

/-- Filtering out keys present in `a` does not affect lookups of keys
absent from `a`. -/
theorem lookupStr_filter_none {α : Type} (a : List (String × α)) (k : String)
    (ha : lookupStr a k = none) :
    ∀ b : List (String × α),
      lookupStr (b.filter (fun kv => (lookupStr a kv.1).isNone)) k = lookupStr b k := by
  intro b
  induction b with
  | nil => rfl
  | cons hd tl ih =>
    by_cases hq : (lookupStr a hd.1).isNone
    · simp only [List.filter_cons, hq, if_true]
      simp [lookupStr_cons, ih]
    · have hne : ¬hd.1 = k := by
        intro he
        rw [he, ha] at hq
        exact hq rfl
      simp only [List.filter_cons]
      rw [if_neg (by simpa using hq)]
      simp [lookupStr_cons, hne, ih]

/-- The object spread `{...a, ...b}` looks up `b` first and falls back
to `a` (per-key override semantics). -/
theorem lookupStr_spreadMerge {α : Type} (a b : List (String × α)) (k : String) :
    lookupStr (spreadMerge a b) k =
      match lookupStr a k with
      | some v =>
        match lookupStr b k with
        | some w => some w
        | none => some v
      | none => lookupStr b k := by
  rw [spreadMerge, lookupStr_append, lookupStr_map_override b a k]
  cases hA : lookupStr a k with
  | some v =>
    cases hB : lookupStr b k with
    | some w => simp
    | none => simp
  | none =>
    simp only
    exact lookupStr_filter_none a k hA b

/-- C9: a never-ready coordinator serves the empty not-ready snapshot;
a ready coordinator serves the per-path merge of both engine caches
(tankage overriding power on a shared path); and after a successful
pass from the initial state with caching enabled, the merged mapping
has an entry for every enabled configured item of both domains and no
entry for any path that belongs to no enabled item (in particular none
for an item configured with `enabled: false` whose path no enabled item
shares). -/
theorem getUsageData_merge_spec :
    (∀ (s : CoordState) (now : ℤ), s.isReady = false →
      getUsageData s now = ⟨now, false, [], []⟩) ∧
    (∀ (s : CoordState) (now : ℤ), s.isReady = true →
      (getUsageData s now).ready = true ∧
      (getUsageData s now).items =
        spreadMerge (s.powerCache.map (fun kv => (kv.1, kv.2.data)))
          (s.tankCache.map (fun kv => (kv.1, kv.2.data))) ∧
      (∀ p : String, lookupStr (getUsageData s now).items p =
        match lookupStr (s.powerCache.map (fun kv => (kv.1, kv.2.data))) p with
        | some v =>
          match lookupStr (s.tankCache.map (fun kv => (kv.1, kv.2.data))) p with
          | some w => some w
          | none => some v
        | none => lookupStr (s.tankCache.map (fun kv => (kv.1, kv.2.data))) p)) ∧
    (∀ (backend : Backend) (options : Options) (now now2 : ℤ) (s : CoordState),
      s = (coordCalculateAll (enginesBody backend options now2) initCoordState).1 →
      cacheEnabledOf options = true →
      (getUsageData s now).ready = true ∧
      (∀ item ∈ powerEnabledItems options,
        (lookupStr (getUsageData s now).items item.path).isSome = true) ∧
      (∀ item ∈ tankEnabledItems options,
        (lookupStr (getUsageData s now).items item.path).isSome = true) ∧
      (∀ p : String,
        (∀ item ∈ powerEnabledItems options, item.path ≠ p) →
        (∀ item ∈ tankEnabledItems options, item.path ≠ p) →
        lookupStr (getUsageData s now).items p = none)) := by
  refine ⟨?_, ?_, ?_⟩
  · intro s now h
    simp [getUsageData, h]
  · intro s now h
    refine ⟨by simp [getUsageData, h], by simp [getUsageData, h], ?_⟩
    intro p
    have hitems : (getUsageData s now).items =
        spreadMerge (s.powerCache.map (fun kv => (kv.1, kv.2.data)))
          (s.tankCache.map (fun kv => (kv.1, kv.2.data))) := by
      simp [getUsageData, h]
    rw [hitems, lookupStr_spreadMerge]
    cases hP : lookupStr (s.powerCache.map (fun kv => (kv.1, kv.2.data))) p <;>
      cases hT : lookupStr (s.tankCache.map (fun kv => (kv.1, kv.2.data))) p <;>
        simp [hP, hT]
  · intro backend options now now2 s hs hcache
    subst hs
    have hpc : powerEngineCalculateAll backend options now2 [] =
        (powerEnabledItems options).foldl
          (fun c item => assocSet c item.path ⟨powerCalculateForItem backend item, now2⟩)
          [] := by
      simp [powerEngineCalculateAll, hcache]
    have htc : tankEngineCalculateAll backend options now2 [] =
        (tankEnabledItems options).foldl
          (fun c item => assocSet c item.path ⟨tankCalculateForItem backend item, now2⟩)
          [] := by
      simp [tankEngineCalculateAll, hcache]
    have hsnap :
        getUsageData (coordCalculateAll (enginesBody backend options now2)
          initCoordState).1 now =
        ⟨now, true,
          spreadMerge
            ((powerEngineCalculateAll backend options now2 []).map
              (fun kv => (kv.1, kv.2.data)))
            ((tankEngineCalculateAll backend options now2 []).map
              (fun kv => (kv.1, kv.2.data))),
          (calculateGroups options (powerEngineCalculateAll backend options now2 [])
            (tankEngineCalculateAll backend options now2 []) now2 []).map
            (fun kv => (kv.1, kv.2.data))⟩ := rfl
    rw [hsnap]
    refine ⟨rfl, ?_, ?_, ?_⟩
    · intro item hmem
      obtain ⟨v, hv⟩ := lookupStr_foldl_mem PowerItem.path
        (fun it => (⟨powerCalculateForItem backend it, now2⟩ : CachedEntry))
        (powerEnabledItems options) [] item.path ⟨item, hmem, rfl⟩
      rw [show (⟨now, true, spreadMerge
            ((powerEngineCalculateAll backend options now2 []).map
              (fun kv => (kv.1, kv.2.data)))
            ((tankEngineCalculateAll backend options now2 []).map
              (fun kv => (kv.1, kv.2.data))), _⟩ : UsageSnapshot).items =
          spreadMerge
            ((powerEngineCalculateAll backend options now2 []).map
              (fun kv => (kv.1, kv.2.data)))
            ((tankEngineCalculateAll backend options now2 []).map
              (fun kv => (kv.1, kv.2.data))) from rfl,
        lookupStr_spreadMerge, lookupStr_map_data, lookupStr_map_data, hpc, hv]
      cases h2 : lookupStr ((tankEngineCalculateAll backend options now2 []))
          item.path <;> simp
    · intro item hmem
      obtain ⟨v, hv⟩ := lookupStr_foldl_mem TankItem.path
        (fun it => (⟨tankCalculateForItem backend it, now2⟩ : CachedEntry))
        (tankEnabledItems options) [] item.path ⟨item, hmem, rfl⟩
      rw [show (⟨now, true, spreadMerge
            ((powerEngineCalculateAll backend options now2 []).map
              (fun kv => (kv.1, kv.2.data)))
            ((tankEngineCalculateAll backend options now2 []).map
              (fun kv => (kv.1, kv.2.data))), _⟩ : UsageSnapshot).items =
          spreadMerge
            ((powerEngineCalculateAll backend options now2 []).map
              (fun kv => (kv.1, kv.2.data)))
            ((tankEngineCalculateAll backend options now2 []).map
              (fun kv => (kv.1, kv.2.data))) from rfl,
        lookupStr_spreadMerge, lookupStr_map_data, lookupStr_map_data, htc, hv]
      cases h2 : lookupStr (powerEngineCalculateAll backend options now2 [])
          item.path <;> simp
    · intro p hp ht
      rw [show (⟨now, true, spreadMerge
            ((powerEngineCalculateAll backend options now2 []).map
              (fun kv => (kv.1, kv.2.data)))
            ((tankEngineCalculateAll backend options now2 []).map
              (fun kv => (kv.1, kv.2.data))), _⟩ : UsageSnapshot).items =
          spreadMerge
            ((powerEngineCalculateAll backend options now2 []).map
              (fun kv => (kv.1, kv.2.data)))
            ((tankEngineCalculateAll backend options now2 []).map
              (fun kv => (kv.1, kv.2.data))) from rfl,
        lookupStr_spreadMerge, lookupStr_map_data, lookupStr_map_data, hpc, htc,
        lookupStr_foldl_not_mem _ _ _ _ _ hp, lookupStr_foldl_not_mem _ _ _ _ _ ht]
      rfl

/-- Witness for C9: with one enabled power item, one disabled power
item and one enabled tankage item, a completed pass serves entries for
the enabled paths and none for the disabled one. -/
theorem getUsageData_merge_spec_witness :
    (lookupStr (getUsageData
      ((coordCalculateAll (enginesBody bFail o1 0) initCoordState).1) 7).items
      "p1").isSome = true ∧
    (lookupStr (getUsageData
      ((coordCalculateAll (enginesBody bFail o1 0) initCoordState).1) 7).items
      "t1").isSome = true ∧
    lookupStr (getUsageData
      ((coordCalculateAll (enginesBody bFail o1 0) initCoordState).1) 7).items
      "pOff" = none := by
  have h := getUsageData_merge_spec.2.2 bFail o1 7 0 _ rfl (by decide)
  exact ⟨h.2.1 itemP1 (by decide), h.2.2.1 itemT1 (by decide),
    h.2.2.2 "pOff" (by decide) (by decide)⟩

end SignalKUsage
